import Mathlib

/-!
Shallow embedding of the url-checker repository (src/src/app/api/check-url/route.ts):
the probe endpoint (POST), and the client component (parseUrls, checkUrl, checkUrls).
Network effects are abstracted into explicit environments; the sequential control
flow, the JSON-body validation, the AbortController signal plumbing and the batch
loop are translated statement by statement from the source.
-/

/-- A JSON value, as produced by request.json(). JSON has no undefined, so a missing
object field is represented by Option.none at lookup time. -/
inductive JsonValue where
  | jnull
  | jbool (b : Bool)
  | jnum (n : Int)
  | jstr (s : String)
  | jarr (elements : List JsonValue)
  | jobj (fields : List (String × JsonValue))

/-- A thrown JavaScript value: either an Error carrying a message, or any other value.
Mirrors the tests of the form (error instanceof Error ? error.message : "Unknown error"). -/
inductive JsError where
  | jsError (message : String)
  | nonError
deriving DecidableEq

/-- The message the catch blocks report for a thrown value (route.ts line 118). -/
def jsErrorMessage : JsError → String
  | .jsError m => m
  | .nonError => "Unknown error"

/-- A completed HEAD response as the fetch layer hands it to the route:
numeric status, status text, redirect information and the response headers. -/
structure HeadResponse where
  status : Nat
  statusText : String
  redirected : Bool
  responseUrl : String
  headers : List (String × String)
deriving DecidableEq

/-- Outcome of awaiting the HEAD fetch at route.ts lines 24-35: either the promise
rejects with a thrown value (timeout abort, DNS, refused connection, TLS), or it
resolves to a response. -/
inductive HeadOutcome where
  | failure (thrown : JsError)
  | success (resp : HeadResponse)
deriving DecidableEq

/-- What the network would answer to the follow-up GET of route.ts lines 61-70,
were it actually reached with a live signal. -/
inductive GetNetOutcome where
  | failure
  | success (html : String)
deriving DecidableEq

/-- The ambient network behaviour for one probe: the HEAD outcome, the elapsed
milliseconds measured by performance.now() at the point the HEAD settles
(route.ts lines 40-41 and 110-111), and the GET outcome. -/
structure ProbeEnv where
  headOutcome : HeadOutcome
  headElapsedMs : Nat
  getOutcome : GetNetOutcome
deriving DecidableEq

/-- A fetch invocation recorded with the state of the AbortController signal that
was passed to it at the moment of the call. -/
structure FetchCall where
  method : String
  url : String
  signalAborted : Bool
deriving DecidableEq

/-- The JSON body built by the route for a completed or failed probe
(route.ts lines 97-108 and 113-119). A field that the object literal omits
(or sets to undefined/null) is Option.none. -/
structure ProbeResult where
  url : String
  status : Option Nat
  statusText : String
  responseTime : Nat
  redirected : Option Bool
  redirectUrl : Option String
  headers : Option (List (String × String))
  pageTitle : Option String
  metaDescription : Option String
  canonical : Option String
  error : Option String
deriving DecidableEq

/-- needle occurs as a contiguous run inside hay (the empty needle always occurs). -/
def containsSub : List Char → List Char → Bool
  | [], needle => needle.isEmpty
  | c :: t, needle => needle.isPrefixOf (c :: t) || containsSub t needle

/-- JavaScript String.prototype.includes: t occurs as a substring of s. -/
def strIncludes (s t : String) : Bool :=
  containsSub s.data t.data

/-- ASCII lowercasing of one character (header names and the markup the route
matches are ASCII). -/
def charLower (c : Char) : Char :=
  if 65 ≤ c.toNat ∧ c.toNat ≤ 90 then Char.ofNat (c.toNat + 32) else c

/-- ASCII lowercasing of a string. -/
def lowerAscii (s : String) : String :=
  String.mk (s.data.map charLower)

/-- Headers.get of the fetch API: header names compare case-insensitively. -/
def headersGet (hs : List (String × String)) (key : String) : Option String :=
  (hs.find? (fun p => lowerAscii p.1 == lowerAscii key)).map (fun p => p.2)

/-- The guard at route.ts line 57: response.headers.get("content-type")?.includes("text/html");
a missing content-type header makes the optional chain undefined, hence falsy. -/
def isHtmlContentType (resp : HeadResponse) : Bool :=
  match headersGet resp.headers "content-type" with
  | none => false
  | some v => strIncludes v "text/html"

/-- The remainder of s after the first occurrence of pat, or none if pat does not occur
(pat is assumed nonempty). -/
def afterFirst (s pat : String) : Option String :=
  match s.splitOn pat with
  | [] => none
  | [_] => none
  | _ :: rest => some (String.intercalate pat rest)

/-- The part of s before the first occurrence of pat (all of s if pat does not occur). -/
def upToFirst (s pat : String) : String :=
  match s.splitOn pat with
  | [] => ""
  | piece :: _ => piece

/-- Models the title regex at route.ts line 73 for lowercase well-formed markup: the
nonempty text between the first "<title ...>" and the next "<", trimmed. (Unreachable
in probeUrl below, because the GET that would supply the html is issued with an
already-aborted signal.) -/
def extractTitle (html : String) : Option String := do
  let t ← afterFirst html "<title"
  let t ← afterFirst t ">"
  let body := upToFirst t "<"
  if body.isEmpty then none else some body.trim

/-- The value of a double-quoted attribute inside one tag text, if nonempty. -/
def attrValue (tag attr : String) : Option String := do
  let t ← afterFirst tag (attr ++ "=\"")
  let v := upToFirst t "\""
  if v.isEmpty then none else some v.trim

/-- The text (up to ">") of the first tag opened by tagOpen that contains marker. -/
def firstTagWith (html tagOpen marker : String) : Option String :=
  ((((html.splitOn tagOpen).drop 1).map (fun c => upToFirst c ">")).filter
    (fun c => strIncludes c marker)).head?

/-- Models the meta-description regexes at route.ts lines 79-84 for lowercase
double-quoted markup (unreachable in probeUrl, like extractTitle). -/
def extractMetaDescription (html : String) : Option String :=
  (firstTagWith html "<meta" "name=\"description\"").bind (fun tag => attrValue tag "content")

/-- Models the canonical-link regex at route.ts line 87 for lowercase double-quoted
markup (unreachable in probeUrl, like extractTitle). -/
def extractCanonical (html : String) : Option String :=
  (firstTagWith html "<link" "rel=\"canonical\"").bind (fun tag => attrValue tag "href")

/-- The message an aborted fetch rejects with. -/
def abortMessage : String := "This operation was aborted"

/-- The inner try/catch of the route (route.ts lines 14-120): the probe of one URL.
Returns the response body together with the trace of fetch calls, each recorded with
the aborted-state of the AbortController signal at the moment it was issued.
The HEAD fetch (line 24) is issued before any abort, so its signal is live; the
route then calls controller.abort() at line 38, so the follow-up GET (line 61),
which reuses controller.signal, is issued with the signal already aborted, and a
fetch whose signal is already aborted rejects immediately — the catch at line 91
swallows that rejection and the three scraped fields stay null. -/
def probeUrl (url : String) (env : ProbeEnv) : ProbeResult × List FetchCall :=
  let headCall : FetchCall := ⟨"HEAD", url, false⟩
  match env.headOutcome with
  | .failure e =>
      (⟨url, none, "Failed", env.headElapsedMs,
        none, none, none, none, none, none, some (jsErrorMessage e)⟩,
       [headCall])
  | .success resp =>
      let enrich :=
        if 200 ≤ resp.status ∧ resp.status < 300 ∧ isHtmlContentType resp = true then
          let getCall : FetchCall := ⟨"GET", url, true⟩
          let outcome := if getCall.signalAborted then GetNetOutcome.failure else env.getOutcome
          let fields :=
            match outcome with
            | .failure => ((none : Option String), (none : Option String), (none : Option String))
            | .success html =>
                (extractTitle html, extractMetaDescription html, extractCanonical html)
          (fields, [headCall, getCall])
        else (((none : Option String), (none : Option String), (none : Option String)), [headCall])
      (⟨url, some resp.status, resp.statusText, env.headElapsedMs,
        some resp.redirected,
        (if resp.redirected then some resp.responseUrl else none),
        some resp.headers,
        enrich.1.1, enrich.1.2.1, enrich.1.2.2, none⟩,
       enrich.2)

/-- The body of the POST response: either a bare error object from the validation
branches, or a probe result. -/
inductive PostBody where
  | errorOnly (message : String)
  | probe (result : ProbeResult)
deriving DecidableEq

/-- An HTTP response of the endpoint: status code plus JSON body. NextResponse.json
defaults to status 200 when no status option is given. -/
structure PostResponse where
  httpStatus : Nat
  body : PostBody
deriving DecidableEq

/-- The request body as the route sees it: request.json() either throws (body is not
parseable JSON) or yields a JSON value. -/
inductive RequestBody where
  | unparseable
  | parsed (v : JsonValue)

/-- Outcome of the destructuring at route.ts line 8. -/
inductive Destructured where
  | throws
  | got (u : Option JsonValue)

/-- JSON.parse collapses duplicate keys, so plain first-match lookup suffices. -/
def lookupField (fields : List (String × JsonValue)) (key : String) : Option JsonValue :=
  (fields.find? (fun p => p.1 == key)).map (fun p => p.2)

/-- Models const &#123; url &#125; = v: destructuring null throws a TypeError (caught by the
outer catch); destructuring any other non-object yields undefined; an object yields
its url field, or undefined when absent. -/
def destructureUrl : JsonValue → Destructured
  | .jnull => .throws
  | .jobj fields => .got (lookupField fields "url")
  | _ => .got none

/-- Models the guard at route.ts line 10: if (!url || typeof url !== "string").
The guard passes exactly when url is a nonempty string: undefined and every
non-string fail the typeof test or are rejected outright, and the only falsy
string is the empty one. -/
def urlOk : Option JsonValue → Option String
  | some (.jstr s) => if s = "" then none else some s
  | _ => none

/-- The POST handler (route.ts lines 6-124): body validation, then the probe.
Also returns the trace of network fetches issued. -/
def POSTmodel (body : RequestBody) (env : ProbeEnv) : PostResponse × List FetchCall :=
  match body with
  | .unparseable => (⟨400, .errorOnly "Invalid request"⟩, [])
  | .parsed v =>
    match destructureUrl v with
    | .throws => (⟨400, .errorOnly "Invalid request"⟩, [])
    | .got u =>
      match urlOk u with
      | none => (⟨400, .errorOnly "Invalid URL provided"⟩, [])
      | some s =>
        let pr := probeUrl s env
        (⟨200, .probe pr.1⟩, pr.2)

/-- Whitespace as JavaScript String.prototype.trim strips it (ASCII part). -/
def isJsSpace (c : Char) : Bool :=
  c == ' ' || c == '\t' || c == '\n' || c == '\r' || c.toNat == 0x0B || c.toNat == 0x0C

/-- JavaScript String.prototype.trim (for ASCII whitespace). -/
def jsTrim (s : String) : String :=
  String.mk (((s.data.dropWhile isJsSpace).reverse.dropWhile isJsSpace).reverse)

/-- Splitting a character list at every separator; adjacent separators and
separators at the ends yield empty pieces, as String.prototype.split does with a
single-character-class regex. -/
def splitChars (p : Char → Bool) : List Char → List (List Char)
  | [] => [[]]
  | c :: t =>
    if p c then [] :: splitChars p t
    else
      match splitChars p t with
      | [] => [[c]]
      | h :: rest => (c :: h) :: rest

/-- JavaScript String.prototype.split with a character-class separator. -/
def jsSplit (s : String) (p : Char → Bool) : List String :=
  (splitChars p s.data).map String.mk

/-- JavaScript String.prototype.startsWith. -/
def strStarts (s pat : String) : Bool :=
  pat.data.isPrefixOf s.data

/-- Forbidden host code points of the WHATWG URL standard (plus the percent sign,
forbidden in domains): a host containing one of these makes the URL constructor throw. -/
def forbiddenHostChar (c : Char) : Bool :=
  c.toNat < 0x20 || c == ' ' || c == '#' || c == '%' || c == '/' || c == ':' ||
  c == '<' || c == '>' || c == '?' || c == '@' || c == '[' || c == '\\' ||
  c == ']' || c == '^' || c == '|' || c.toNat == 0x7F

/-- The numeric value of a digit string. -/
def digitsToNat (l : List Char) : Nat :=
  l.foldl (fun acc c => acc * 10 + (c.toNat - 48)) 0

/-- A WHATWG port string: ASCII digits only, value below 2^16 (empty means no port,
which the parser accepts). -/
def validPortString (s : List Char) : Bool :=
  s.all (fun c => c.isDigit) && (s.isEmpty || digitsToNat s ≤ 65535)

/-- Validity of the host[:port] part of an authority: nonempty host free of forbidden
code points, optional numeric port after the first colon. Consecutive dots are NOT
an error: the standard's domain-to-ASCII runs with VerifyDnsLength=false, so empty
labels (as in bad..url) are accepted. -/
def hostPortValid (hp : List Char) : Bool :=
  let host := hp.takeWhile (fun c => c != ':')
  let portStr := hp.drop (host.length + 1)
  !host.isEmpty && host.all (fun c => !forbiddenHostChar c) && validPortString portStr

/-- Models success of the WHATWG URL constructor (new URL(s), route.ts line 347) for
the scheme-qualified strings parseUrls produces, faithful for ASCII authorities
without percent-escapes, embedded tabs/newlines or IPv6 bracket hosts (none of which
the claims exercise): after the scheme the parser skips extra slashes, reads the
authority up to a slash, backslash, question mark or hash, discards userinfo up to
the last at-sign, and requires a valid host and port. Every failure of the
constructor on such input is a host or port failure; anything after the authority
is merely percent-encoded, never rejected. -/
def urlCanParse (s : String) : Bool :=
  let afterScheme :=
    if strStarts s "https://" then some (s.data.drop 8)
    else if strStarts s "http://" then some (s.data.drop 7)
    else none
  match afterScheme with
  | none => false
  | some r =>
    let r2 := r.dropWhile (fun c => c == '/' || c == '\\')
    let authority := r2.takeWhile (fun c => !(c == '/' || c == '\\' || c == '?' || c == '#'))
    let hostPort := (splitChars (fun c => c == '@') authority).getLastD []
    hostPortValid hostPort

/-- validateUrl (route.ts lines 345-352): true iff new URL(url) does not throw. -/
def validateUrl (url : String) : Bool :=
  urlCanParse url

/-- parseUrls (route.ts lines 354-372): split on newline or comma, trim, drop empty
pieces, prepend https:// to pieces lacking an http(s) scheme, drop pieces the URL
constructor rejects. -/
def parseUrls (text : String) : List String :=
  (((((jsSplit text (fun c => c == '\n' || c == ',')).map
    (fun u => jsTrim u)).filter
    (fun u => u.length > 0)).map
    (fun u => if !strStarts u "http://" && !strStarts u "https://" then "https://" ++ u else u)).filter
    (fun u => validateUrl u))

/-- The client-side environment for checkUrl (route.ts lines 374-399): per URL, an
optional failure of the fetch to the local /api/check-url endpoint itself, and the
probe environment the endpoint runs in. -/
structure ClientEnv where
  networkFail : String → Option JsError
  serverEnv : String → ProbeEnv

/-- The failure object built in the catch of checkUrl (route.ts lines 391-397). -/
def clientFailureResult (url message : String) : ProbeResult :=
  ⟨url, none, "Failed", 0, none, none, none, none, none, none, some message⟩

/-- Response.ok of the fetch API: status in the 2xx range. -/
def responseOk (status : Nat) : Bool :=
  200 ≤ status && status < 300

/-- checkUrl (route.ts lines 374-399): POST the url to the endpoint; on a non-ok
response throw Error(errorData.error || "API request failed") and catch it into a
failure object; on a fetch failure likewise; otherwise return the endpoint's JSON. -/
def checkUrl (cenv : ClientEnv) (url : String) : ProbeResult :=
  match cenv.networkFail url with
  | some e => clientFailureResult url (jsErrorMessage e)
  | none =>
    let resp := (POSTmodel (.parsed (.jobj [("url", .jstr url)])) (cenv.serverEnv url)).1
    if responseOk resp.httpStatus then
      match resp.body with
      | .probe r => r
      | .errorOnly m => clientFailureResult url (if m = "" then "API request failed" else m)
    else
      match resp.body with
      | .errorOnly m => clientFailureResult url (if m = "" then "API request failed" else m)
      | .probe _ => clientFailureResult url "API request failed"

/-- batchSize (route.ts line 421): process 10 URLs at a time. -/
def batchSize : Nat := 10

/-- Accumulator pass of groupsOf: collect elements into the current group (kept
reversed), closing it each time it reaches n. -/
def groupsOfAux (n : Nat) : List α → List α → List (List α)
  | [], acc => if acc.isEmpty then [] else [acc.reverse]
  | x :: xs, acc =>
      let acc2 := x :: acc
      if acc2.length == n then acc2.reverse :: groupsOfAux n xs []
      else groupsOfAux n xs acc2

/-- The partition urlList.slice(i, i + batchSize) for i = 0, n, 2n, ... of the batch
loop (route.ts lines 425-426), as a list of groups in order. -/
def groupsOf (n : Nat) (xs : List α) : List (List α) :=
  groupsOfAux n xs []

/-- Math.round(num / den) for nonnegative arguments: round half away from zero. -/
def jsMathRound (num den : Nat) : Nat :=
  (2 * num + den) / (2 * den)

/-- Observable side effects of the batch loop: a setProgress call after a group
barrier (recorded with the completed count, the total, and the rounded percentage
actually passed to setProgress), and an inter-group pause. -/
inductive BatchEvent where
  | progress (completed total percent : Nat)
  | pause (milliseconds : Nat)
deriving DecidableEq

/-- The body of the batch loop (route.ts lines 425-437), one group per step:
await Promise.all(batch.map(checkUrl)) — Promise.all resolves to the results in
argument order regardless of completion order — push the group's results, report
progress as Math.round(results.length / urlList.length * 100), and await a 300 ms
pause when further URLs remain (i + batchSize < urlList.length, i.e. when more
groups follow). The loop contains no cancellation check. -/
def processGroups (probeFn : String → ProbeResult) (total : Nat) :
    Nat → List (List String) → List ProbeResult × List BatchEvent
  | _, [] => ([], [])
  | done, g :: rest =>
    let batchResults := g.map probeFn
    let completed := done + batchResults.length
    let ev := BatchEvent.progress completed total (jsMathRound (100 * completed) total)
    match rest with
    | [] => (batchResults, [ev])
    | r :: rs =>
      let t := processGroups probeFn total completed (r :: rs)
      (batchResults ++ t.1, ev :: BatchEvent.pause 300 :: t.2)

/-- The batch run over an already-normalized URL list: the loop of checkUrls
(route.ts lines 421-437), returning the accumulated results and the event trace. -/
def checkUrlsRun (probeFn : String → ProbeResult) (urls : List String) :
    List ProbeResult × List BatchEvent :=
  processGroups probeFn urls.length 0 (groupsOf batchSize urls)

/-- The batch run as a function of a cancellation signal (modelled as the number of
completed groups after which the signal is set). The loop body (route.ts lines
425-437) contains no read of any cancellation flag — the Cancel handler (route.ts
lines 1002-1008) only sets the isChecking UI flag and shows a toast — so the run
ignores the signal entirely. -/
def checkUrlsRunWithCancel (cancelAfter : Nat) (probeFn : String → ProbeResult)
    (urls : List String) : List ProbeResult × List BatchEvent :=
  checkUrlsRun probeFn urls

/-- Modelled from the spec: the cancellation behaviour section 4.3 step 5 prescribes
and the source lacks — once the token is signaled (here: as soon as cancelAfter
groups have completed), stop dispatching further groups and return the results
accumulated so far. This definition exists only as the spec-side contrast for the
batch loop actually found in the source. -/
def specCancelRun (cancelAfter : Nat) (probeFn : String → ProbeResult) :
    Nat → List (List String) → List ProbeResult
  | _, [] => []
  | groupsDone, g :: rest =>
    if cancelAfter ≤ groupsDone then []
    else g.map probeFn ++ specCancelRun cancelAfter probeFn (groupsDone + 1) rest

/-- A concrete probe function for the closed batch scenarios. -/
def constProbe (u : String) : ProbeResult :=
  clientFailureResult u "connection refused"

/-- A concrete batch of 25 normalized URLs. -/
def urls25 : List String :=
  (List.range 25).map (fun n => "https://u" ++ toString n ++ ".example")

/-- A quiescent probe environment for boundary cases in which no fetch is reached. -/
def probeEnvIdle : ProbeEnv :=
  ⟨.failure .nonError, 0, .failure⟩

/-- A concrete HEAD response: 200, content-type text/html. -/
def respHtml200 : HeadResponse :=
  ⟨200, "OK", false, "https://example.com", [("content-type", "text/html; charset=utf-8")]⟩

/-- An environment whose HEAD succeeds with a 2xx HTML response and whose network
would happily answer the GET with a titled page. -/
def envHtml200 : ProbeEnv :=
  ⟨.success respHtml200, 42, .success "<html><title>Example</title></html>"⟩

/-- A concrete HEAD response: 404 on an HTML error page. -/
def resp404 : HeadResponse :=
  ⟨404, "Not Found", false, "https://missing.example/x", [("content-type", "text/html")]⟩

/-- An environment whose HEAD succeeds with status 404. -/
def env404 : ProbeEnv :=
  ⟨.success resp404, 87, .failure⟩

/-- An environment whose HEAD fetch rejects with a DNS failure. -/
def envNetworkFail : ProbeEnv :=
  ⟨.failure (.jsError "getaddrinfo ENOTFOUND down.example"), 123, .failure⟩

theorem probeUrl_url (url : String) (env : ProbeEnv) : (probeUrl url env).1.url = url := by
  cases h : env.headOutcome <;> simp [probeUrl, h]

theorem checkUrl_url (cenv : ClientEnv) (url : String) : (checkUrl cenv url).url = url := by
  unfold checkUrl
  cases hf : cenv.networkFail url with
  | some e => simp [clientFailureResult]
  | none =>
    by_cases hu : url = ""
    · subst hu
      simp [POSTmodel, destructureUrl, lookupField, urlOk, responseOk, clientFailureResult]
    · simp [POSTmodel, destructureUrl, lookupField, urlOk, hu, responseOk, probeUrl_url,
        clientFailureResult]

theorem groupsOfAux_join (n : Nat) (xs : List α) :
    ∀ acc : List α, (groupsOfAux n xs acc).join = acc.reverse ++ xs := by
  induction xs with
  | nil => intro acc; cases acc <;> simp [groupsOfAux]
  | cons x xs ih =>
    intro acc
    simp only [groupsOfAux]
    split
    · simp [ih, List.reverse_cons, List.append_assoc]
    · rw [ih]
      simp [List.reverse_cons, List.append_assoc]

theorem groupsOf_join (n : Nat) (xs : List α) : (groupsOf n xs).join = xs := by
  simpa using groupsOfAux_join n xs []

theorem processGroups_fst (f : String → ProbeResult) (total : Nat) (gs : List (List String)) :
    ∀ done, (processGroups f total done gs).1 = gs.join.map f := by
  induction gs with
  | nil => intro done; simp [processGroups]
  | cons g rest ih =>
    intro done
    cases rest with
    | nil => simp [processGroups]
    | cons r rs => simp [processGroups, ih, List.map_append]

theorem checkUrlsRun_fst (f : String → ProbeResult) (urls : List String) :
    (checkUrlsRun f urls).1 = urls.map f := by
  unfold checkUrlsRun
  rw [processGroups_fst, groupsOf_join]

/-- C1: for every URL probed, the body built by the probe has exactly one of status
and error defined — a numeric status with no error, or a null status with an error
message; never both, never neither. -/
theorem probe_exactly_one_of_status_error (url : String) (env : ProbeEnv) :
    ((probeUrl url env).1.status.isSome ∧ (probeUrl url env).1.error = none) ∨
    ((probeUrl url env).1.status = none ∧ (probeUrl url env).1.error.isSome) := by
  cases h : env.headOutcome <;> simp [probeUrl, h]

/-- C2: the code contradicts the claim — in the 2xx-HTML case the follow-up GET is
issued with the HEAD request's own AbortController signal, which the route aborted
right after the HEAD completed, so the GET carries an already-aborted signal (no
independent timeout, instant rejection) and the scraped fields stay null. -/
theorem get_follow_up_issued_with_aborted_signal (url : String) (env : ProbeEnv)
    (resp : HeadResponse) (h : env.headOutcome = .success resp)
    (h1 : 200 ≤ resp.status) (h2 : resp.status < 300) (h3 : isHtmlContentType resp = true) :
    (probeUrl url env).2 = [⟨"HEAD", url, false⟩, ⟨"GET", url, true⟩] ∧
    (probeUrl url env).1.pageTitle = none ∧
    (probeUrl url env).1.metaDescription = none ∧
    (probeUrl url env).1.canonical = none := by
  simp [probeUrl, h, h1, h2, h3]

theorem get_follow_up_issued_with_aborted_signal_witness :
    (probeUrl "https://example.com" envHtml200).2 =
      [⟨"HEAD", "https://example.com", false⟩, ⟨"GET", "https://example.com", true⟩] ∧
    (probeUrl "https://example.com" envHtml200).1.pageTitle = none ∧
    (probeUrl "https://example.com" envHtml200).1.metaDescription = none ∧
    (probeUrl "https://example.com" envHtml200).1.canonical = none :=
  get_follow_up_issued_with_aborted_signal "https://example.com" envHtml200 respHtml200
    rfl (by decide) (by decide) (by decide)

/-- C3: when the HEAD request fails (timeout abort, DNS, network), the endpoint
answers HTTP 200 with the failed-probe shape — status null, error set, responseTime
the elapsed time up to the failure — and the probe raises nothing past its boundary
(the model is a total function into this response). -/
theorem head_failure_yields_http200_failed_shape (s : String) (env : ProbeEnv)
    (e : JsError) (hs : s ≠ "") (h : env.headOutcome = .failure e) :
    POSTmodel (.parsed (.jobj [("url", .jstr s)])) env =
      (⟨200, .probe ⟨s, none, "Failed", env.headElapsedMs,
        none, none, none, none, none, none, some (jsErrorMessage e)⟩⟩,
       [⟨"HEAD", s, false⟩]) := by
  simp [POSTmodel, destructureUrl, lookupField, urlOk, hs, probeUrl, h]

theorem head_failure_yields_http200_failed_shape_witness :
    POSTmodel (.parsed (.jobj [("url", .jstr "https://down.example")])) envNetworkFail =
      (⟨200, .probe ⟨"https://down.example", none, "Failed", 123,
        none, none, none, none, none, none, some "getaddrinfo ENOTFOUND down.example"⟩⟩,
       [⟨"HEAD", "https://down.example", false⟩]) :=
  head_failure_yields_http200_failed_shape "https://down.example" envNetworkFail
    (.jsError "getaddrinfo ENOTFOUND down.example") (by decide) rfl

/-- C4: on a completed HEAD, the scraped fields pageTitle, metaDescription and
canonical are absent whenever the status is outside the 2xx range or the
content-type is not HTML; they are only ever populated alongside a 2xx HTML
response; and in the 2xx-HTML case a failing GET follow-up leaves them unset while
the probe still reports the HEAD-derived status with no error. -/
theorem seo_fields_absent_outside_html_success (url : String) (env : ProbeEnv)
    (resp : HeadResponse) (h : env.headOutcome = .success resp) :
    (¬(200 ≤ resp.status ∧ resp.status < 300 ∧ isHtmlContentType resp = true) →
      (probeUrl url env).1.pageTitle = none ∧
      (probeUrl url env).1.metaDescription = none ∧
      (probeUrl url env).1.canonical = none) ∧
    (((probeUrl url env).1.pageTitle ≠ none ∨
      (probeUrl url env).1.metaDescription ≠ none ∨
      (probeUrl url env).1.canonical ≠ none) →
      200 ≤ resp.status ∧ resp.status < 300 ∧ isHtmlContentType resp = true) ∧
    ((200 ≤ resp.status ∧ resp.status < 300 ∧ isHtmlContentType resp = true) →
      (probeUrl url env).1.pageTitle = none ∧
      (probeUrl url env).1.metaDescription = none ∧
      (probeUrl url env).1.canonical = none ∧
      (probeUrl url env).1.status = some resp.status ∧
      (probeUrl url env).1.error = none) := by
  by_cases hc : 200 ≤ resp.status ∧ resp.status < 300 ∧ isHtmlContentType resp = true <;>
    simp [probeUrl, h, hc]

theorem seo_fields_absent_outside_html_success_witness :
    (probeUrl "https://missing.example/x" env404).1.pageTitle = none ∧
    (probeUrl "https://missing.example/x" env404).1.metaDescription = none ∧
    (probeUrl "https://missing.example/x" env404).1.canonical = none :=
  (seo_fields_absent_outside_html_success "https://missing.example/x" env404 resp404 rfl).1
    (by decide)

/-- C5 counterexample: on the input of the claim's scenario the normalizer yields
TWO urls, not one — "https://bad..url" is a URL the WHATWG constructor accepts
(empty host labels are not an error), so it is not dropped. -/
theorem parse_urls_scenario_counterexample :
    parseUrls "example.com, https://bad..url, " = ["https://example.com", "https://bad..url"] ∧
    parseUrls "example.com, https://bad..url, " ≠ ["https://example.com"] := by
  decide

/-- C5 amended: the normalizer splits on newline or comma, trims, drops empty
pieces, prepends https:// to pieces lacking an http(s) scheme, and drops pieces
that fail URL parsing — every produced url passes validateUrl — but on the input
"example.com, https://bad..url, " it returns the two-element sequence
["https://example.com", "https://bad..url"], since "https://bad..url" parses. -/
theorem parse_urls_normalization :
    parseUrls "example.com, https://bad..url, " = ["https://example.com", "https://bad..url"] ∧
    parseUrls "  a.com \n , " = ["https://a.com"] ∧
    (∀ text u, u ∈ parseUrls text → validateUrl u = true) :=
  ⟨by decide, by decide, fun _ _ h => (List.mem_filter.mp h).2⟩

theorem parse_urls_normalization_witness :
    validateUrl "https://example.com" = true :=
  parse_urls_normalization.2.2 "example.com" "https://example.com" (by decide)

/-- C6: a batch run over any normalized URL sequence returns one result per input,
in input order: the i-th result's url is the i-th input (stated as: mapping url
over the results gives back the inputs, and the lengths agree). -/
theorem batch_preserves_length_and_order (cenv : ClientEnv) (urls : List String) :
    ((checkUrlsRun (checkUrl cenv) urls).1).map (fun r => r.url) = urls ∧
    ((checkUrlsRun (checkUrl cenv) urls).1).length = urls.length := by
  rw [checkUrlsRun_fst]
  constructor
  · rw [List.map_map]
    have h : ((fun r => r.url) ∘ checkUrl cenv) = fun u => u :=
      funext (fun u => checkUrl_url cenv u)
    rw [h]
    simp
  · simp

/-- C7: a batch of 25 URLs is processed as 3 sequential groups of at most 10, with
progress reported after each group barrier from the completed/total counts 10/25,
20/25, 25/25 (passed to setProgress as the rounded percentages 40, 80, 100), a
300 ms pause between consecutive groups and none after the final group. -/
theorem batch_of_25_groups_and_progress :
    (groupsOf batchSize urls25).length = 3 ∧
    (checkUrlsRun constProbe urls25).2 =
      [.progress 10 25 40, .pause 300, .progress 20 25 80, .pause 300, .progress 25 25 100] ∧
    (checkUrlsRun constProbe urls25).1.length = 25 := by
  decide

/-- C8: the code contradicts the claim — the batch loop consults no cancellation
flag (the Cancel handler only flips the isChecking UI state), so however the signal
is timed the run still dispatches every group and returns all 25 results, where the
spec-modelled cooperative cancellation (signal set after the first group) would
stop after the 10 results of that group. -/
theorem cancellation_ignored_by_batch_loop (cancelAfter : Nat) :
    (checkUrlsRunWithCancel cancelAfter constProbe urls25).1.length = 25 ∧
    (specCancelRun 1 constProbe 0 (groupsOf batchSize urls25)).length = 10 := by
  refine ⟨?_, ?_⟩
  · show (checkUrlsRun constProbe urls25).1.length = 25
    decide
  · decide

/-- C9 counterexample: the request body "null" parses as JSON and has no url field,
yet the endpoint answers with Invalid request, not Invalid URL provided: the
destructuring const &#123; url &#125; = null itself throws, landing in the outer catch. -/
theorem json_null_body_counterexample :
    POSTmodel (.parsed .jnull) probeEnvIdle = (⟨400, .errorOnly "Invalid request"⟩, []) ∧
    POSTmodel (.parsed .jnull) probeEnvIdle ≠ (⟨400, .errorOnly "Invalid URL provided"⟩, []) := by
  decide

/-- C9 amended: an unparseable body gets HTTP 400 with error Invalid request; a
parsed body whose url is missing, non-string, or an empty string gets HTTP 400 with
error Invalid URL provided — except a body parsing to JSON null, whose destructuring
throws and is answered like an unparseable body with Invalid request; in every such
case no network probe is attempted (the fetch trace is empty). -/
theorem request_validation_amended (env : ProbeEnv) :
    POSTmodel .unparseable env = (⟨400, .errorOnly "Invalid request"⟩, []) ∧
    POSTmodel (.parsed .jnull) env = (⟨400, .errorOnly "Invalid request"⟩, []) ∧
    (∀ v u, destructureUrl v = .got u → urlOk u = none →
      POSTmodel (.parsed v) env = (⟨400, .errorOnly "Invalid URL provided"⟩, [])) := by
  refine ⟨rfl, rfl, ?_⟩
  intro v u hd hu
  simp [POSTmodel, hd, hu]

theorem request_validation_amended_witness :
    POSTmodel (.parsed (.jobj [("url", .jnum 5)])) probeEnvIdle =
      (⟨400, .errorOnly "Invalid URL provided"⟩, []) :=
  (request_validation_amended probeEnvIdle).2.2 (.jobj [("url", .jnum 5)])
    (some (.jnum 5)) rfl rfl

/-- C10: a url field that is present and a string but empty is rejected at
validation — HTTP 400 with error Invalid URL provided — and no network request is
issued (the empty string is falsy, so the !url guard fires). -/
theorem empty_string_url_rejected (env : ProbeEnv) :
    POSTmodel (.parsed (.jobj [("url", .jstr "")])) env =
      (⟨400, .errorOnly "Invalid URL provided"⟩, []) := by
  rfl
